import Mathlib

/-!
Shallow embedding of the GarlicSim core analyzed here:

* `garlicsim/misc/simpack_grokker/simpack_grokker.py` —
  `SimpackGrokker.__init_analysis`, `__init_analysis_settings`,
  `get_inplace_step_iterator`, and the `CachedType`-based memoization of
  `SimpackGrokker` construction together with `create_from_state`.
* `garlicsim/general_misc/temp_value_setters/temp_value_setter.py` —
  `TempValueSetter.__enter__` / `__exit__` and the `(dict, key)` variant.

Python exceptions are modelled by an explicit `Exc` type and fallible code
returns `Except Exc _`.  Python dictionaries used as finite maps are modelled
by association lists with canonicalizing update.
-/

namespace GarlicSim

/-- The six step categories of `step_types.step_types_list`
(`garlicsim/misc/simpack_grokker/step_types`). -/
inductive StepType where
  | SimpleStep
  | StepGenerator
  | InplaceStep
  | InplaceStepGenerator
  | HistoryStep
  | HistoryStepGenerator
deriving DecidableEq, Repr, Fintype

/-- A callable member of a simpack's `State` class.  `name` is the callable's
`__name__`.  `stepType` — Modelled from the spec: the `get_step_type` module is
not under `src/`; per the spec, classification is a pure function of the
callable's shape/markers ("require each step-shaped callable to carry an
explicit, statically-checkable marker ...; classification becomes a table
lookup"), so each callable carries its category marker (`none` = no recognized
shape).  `tag` distinguishes distinct callables that share a name and marker. -/
structure Method where
  name : String
  stepType : Option StepType
  tag : Nat := 0
deriving DecidableEq, Repr

/-- Whether `pat` occurs at the start of `s`. -/
def startsWith : List Char → List Char → Bool
  | [], _ => true
  | _ :: _, [] => false
  | p :: ps, c :: cs => p == c && startsWith ps cs

/-- Whether `pat` occurs as a contiguous run anywhere in `s` (Python's
`pat in s` on strings). -/
def containsSub (pat : List Char) : List Char → Bool
  | [] => pat.isEmpty
  | c :: rest => startsWith pat (c :: rest) || containsSub pat rest

/-- Python's `'step' in method.__name__` (substring containment). -/
def containsStep (name : String) : Bool :=
  containsSub "step".toList name.toList

/-- The dict `self.step_functions`, whose keys are the fixed six step types
(`dict((step_type, []) for step_type in step_types.step_types_list)`). -/
structure StepFunctionTable where
  simpleStep : List Method
  stepGenerator : List Method
  inplaceStep : List Method
  inplaceStepGenerator : List Method
  historyStep : List Method
  historyStepGenerator : List Method
deriving DecidableEq, Repr

/-- Look up one category's list in the table. -/
def StepFunctionTable.get (t : StepFunctionTable) : StepType → List Method
  | .SimpleStep => t.simpleStep
  | .StepGenerator => t.stepGenerator
  | .InplaceStep => t.inplaceStep
  | .InplaceStepGenerator => t.inplaceStepGenerator
  | .HistoryStep => t.historyStep
  | .HistoryStepGenerator => t.historyStepGenerator

/-- The classification loop of `__init_analysis`:
`for method in state_methods.itervalues(): if 'step' in method.__name__:
self.step_functions[get_step_type(method)].append(method)`.
Appending in iteration order makes each category's list the order-preserving
filter of the method sequence. -/
def classifyMethods (methods : List Method) : StepFunctionTable where
  simpleStep :=
    methods.filter (fun m => containsStep m.name && m.stepType == some .SimpleStep)
  stepGenerator :=
    methods.filter (fun m => containsStep m.name && m.stepType == some .StepGenerator)
  inplaceStep :=
    methods.filter (fun m => containsStep m.name && m.stepType == some .InplaceStep)
  inplaceStepGenerator :=
    methods.filter (fun m => containsStep m.name && m.stepType == some .InplaceStepGenerator)
  historyStep :=
    methods.filter (fun m => containsStep m.name && m.stepType == some .HistoryStep)
  historyStepGenerator :=
    methods.filter (fun m => containsStep m.name && m.stepType == some .HistoryStepGenerator)

/-- `all_step_functions = reduce(list.__add__, self.step_functions.itervalues())`:
the concatenation of all six category lists (dict-value order is arbitrary in
Python 2; only emptiness of the result is ever used). -/
def allStepFunctions (t : StepFunctionTable) : List Method :=
  t.simpleStep ++ t.stepGenerator ++ t.inplaceStep ++ t.inplaceStepGenerator ++
    t.historyStep ++ t.historyStepGenerator

/-- The simpack's `State` class: whether it subclasses
`garlicsim.data_structures.State`, and its own callable members
(`misc_tools.getted_vars(State)` restricted to callables) in dict-iteration
order. -/
structure StateClass where
  isSubclassOfDataState : Bool
  methods : List Method
deriving DecidableEq, Repr

/-- A value holding per-simpack settings attributes: an attribute assignment
(`vars`-style association list of names to values, values abstracted as `Nat`).
`hasattr` = key present, `getattr` = lookup. -/
def AttrObject : Type := List (String × Nat)

/-- A simpack as `__init_analysis` and `__init_analysis_settings` see it:
`id` is the Python object identity used as the memoization key, `StateClass?`
is the `State` attribute (`none` = `AttributeError` on `simpack.State`), and
`settings?` is the optional `settings` attribute (`none` = `hasattr(simpack,
'settings')` is false, also after the `import_if_exists` attempt). -/
structure Simpack where
  id : Nat
  StateClass? : Option StateClass
  settings? : Option (List (String × Nat))
deriving DecidableEq, Repr

/-- Reasons for `InvalidSimpack`, one per `raise` site of `__init_analysis`. -/
inductive InvalidSimpackReason where
  /-- "The %s simpack does not define a `State` class." -/
  | noStateClass
  /-- "... defines a State class, but it's not a subclass of
  `garlicsim.data_structures.State`." -/
  | stateNotSubclass
  /-- "The %s simpack has not defined any kind of step function." -/
  | noStepFunction
  /-- "... is defining both a history-dependent step and a
  non-history-dependent step - which is forbidden." -/
  | mixedHistory
deriving DecidableEq, Repr

/-- The Python exceptions the embedded code can raise. -/
inductive Exc where
  | invalidSimpack (reason : InvalidSimpackReason)
  | garlicSimException (msg : String)
  | nameError (name : String)
  | keyError
  | assertionError
  | indexError
  /-- Listed in the spec's error taxonomy; no `raise` site in the source
  constructs it. -/
  | unsupportedOperation
deriving DecidableEq, Repr

/-- The analysis results `__init_analysis` stores on the grokker. -/
structure Analysis where
  step_functions : StepFunctionTable
  history_dependent : Bool
  default_step_function : Method
deriving DecidableEq, Repr

/-- `SimpackGrokker.__init_analysis`, step by step:
1. `State = simpack.State`, else `InvalidSimpack`;
2. `issubclass(State, garlicsim.data_structures.State)` check;
3. classify the step-named callables into `self.step_functions`;
4. `all_step_functions` empty → `InvalidSimpack`;
5. history branch: `default_step_function = (hist_gen + hist_step)[0]`
   (the indexing happens before the mixing check), then the mixing check
   raises `InvalidSimpack`;
6. non-history branch: `default_step_function =
   (step_gen + simple + inplace_gen + inplace)[0]`.
`l[0]` is modelled as `head?` with `IndexError` on the empty list. -/
def initAnalysis (simpack : Simpack) : Except Exc Analysis :=
  match simpack.StateClass? with
  | none => .error (.invalidSimpack .noStateClass)
  | some State =>
    if !State.isSubclassOfDataState then
      .error (.invalidSimpack .stateNotSubclass)
    else
      let step_functions := classifyMethods State.methods
      if (allStepFunctions step_functions).isEmpty then
        .error (.invalidSimpack .noStepFunction)
      else
        if !step_functions.historyStep.isEmpty ||
            !step_functions.historyStepGenerator.isEmpty then
          match (step_functions.historyStepGenerator ++
                 step_functions.historyStep).head? with
          | none => .error .indexError
          | some default_step_function =>
            if !step_functions.simpleStep.isEmpty ||
                !step_functions.stepGenerator.isEmpty ||
                !step_functions.inplaceStep.isEmpty ||
                !step_functions.inplaceStepGenerator.isEmpty then
              .error (.invalidSimpack .mixedHistory)
            else
              .ok ⟨step_functions, true, default_step_function⟩
        else
          match (step_functions.stepGenerator ++ step_functions.simpleStep ++
                 step_functions.inplaceStepGenerator ++
                 step_functions.inplaceStep).head? with
          | none => .error .indexError
          | some default_step_function =>
            .ok ⟨step_functions, false, default_step_function⟩

/-! ### Association-list model of Python attribute sets and dicts -/

/-- Attribute/dict lookup: `getattr(obj, k)` / `d.get(k)` (first binding wins). -/
def lookupKey [DecidableEq K] (k : K) : List (K × V) → Option V
  | [] => none
  | (a, v) :: rest => if a = k then some v else lookupKey k rest

/-- Remove every binding of `k` (extensional model of `del d[k]` on the
unique-key dict). -/
def delKey [DecidableEq K] (k : K) (d : List (K × V)) : List (K × V) :=
  d.filter (fun kv => !(kv.1 == k))

/-- `d[k] = v`, extensionally: bind `k` to `v`, leaving other keys unchanged. -/
def setKey [DecidableEq K] (k : K) (v : V) (d : List (K × V)) : List (K × V) :=
  (k, v) :: delKey k d

/-! ### `SimpackGrokker.__init_analysis_settings` -/

/-- The override loop of `__init_analysis_settings`:
`for (key, value) in vars(self.settings).iteritems(): if
hasattr(original_settings, key): setattr(self.settings, key,
getattr(original_settings, key))`.  `defaults` is `vars(Settings())` — the
recognized options with their framework defaults; `settings?` is the simpack's
optional `settings` object (`none` when `hasattr(self.simpack, 'settings')` is
false, which already folds in the `import_if_exists` attempt that only makes
the attribute appear).  Option values are abstracted as `Nat` tokens. -/
def resolveSettings (defaults : List (String × Nat))
    (settings? : Option (List (String × Nat))) : List (String × Nat) :=
  match settings? with
  | none => defaults
  | some original_settings =>
    defaults.map (fun kv =>
      match lookupKey kv.1 original_settings with
      | some actual_value => (kv.1, actual_value)
      | none => kv)

/-- Modelled from the spec: the `Settings` class is not under `src/`; the spec
describes "a fixed, enumerated set of recognized option names (e.g., a
determinism-check function reference) each with a framework-supplied default".
Values are abstracted as `Nat` tokens. -/
def frameworkDefaultSettings : List (String × Nat) :=
  [("DETERMINISM_FUNCTION", 0), ("CRUNCHERS", 1)]

/-! ### `SimpackGrokker.get_inplace_step_iterator` -/

/-- `get_step_type(step_function)` — Modelled from the spec: the
`get_step_type` module is not under `src/`; per the spec classification is a
table lookup of the callable's explicit category marker. -/
def get_step_type (m : Method) : Option StepType := m.stepType

/-- A step profile; `get_inplace_step_iterator` consults only its
`step_function` attribute. -/
structure StepProfile where
  step_function : Method
deriving DecidableEq, Repr

/-- Names bound in the local frame of `get_inplace_step_iterator` at the point
where its success branch executes: its parameters and its assigned locals. -/
def inplaceFrameNames : List String :=
  ["self", "state", "step_profile", "step_function", "step_type",
   "inplace_step_iterator_class"]

/-- Names bound at module level in `simpack_grokker.py`: its imports and its
top-level class.  (Python builtins are also in scope; none of them is named
`state_or_history_browser`, so they are omitted.) -/
def simpackGrokkerModuleNames : List String :=
  ["functools", "types", "imp", "import_tools", "misc_tools", "garlicsim",
   "AutoClockGenerator", "InvalidSimpack", "GarlicSimException",
   "simpack_tools", "step_iterators_module", "misc", "Settings",
   "get_step_type", "step_types", "SimpackGrokker"]

/-- Python name resolution inside `get_inplace_step_iterator`: a name
evaluates successfully iff it is bound in the local frame or at module level
(a miss raises `NameError`). -/
def resolvable (n : String) : Bool :=
  (inplaceFrameNames ++ simpackGrokkerModuleNames).contains n

/-- A simulation state object; `simpack` is the simpack that produced it
(consulted by `simpack_tools.get_from_state`). -/
structure StateObj where
  simpack : Simpack
deriving DecidableEq, Repr

/-- The object `inplace_step_iterator_class(state_or_history_browser,
step_profile)` would construct: its first constructor argument is the value of
the name `state_or_history_browser` in the enclosing frame. -/
structure InplaceStepIterator where
  boundName : String
  profile : StepProfile
deriving DecidableEq, Repr

/-- `SimpackGrokker.get_inplace_step_iterator(self, state, step_profile)`:
look up the step function's type; if it is not `InplaceStep` or
`InplaceStepGenerator`, raise `GarlicSimException`; otherwise construct
`inplace_step_iterator_class(state_or_history_browser, step_profile)` — whose
first argument is the name `state_or_history_browser`, resolved in the
enclosing scope before the call.  (The `none` marker branch is modelled from
the spec, since `get_step_type` itself is not under `src/`.) -/
def get_inplace_step_iterator (state : StateObj) (step_profile : StepProfile) :
    Except Exc InplaceStepIterator :=
  let step_function := step_profile.step_function
  match get_step_type step_function with
  | none => .error (.garlicSimException "unrecognized step function")
  | some step_type =>
    if step_type ∉ [StepType.InplaceStep, StepType.InplaceStepGenerator] then
      .error (.garlicSimException
        "Can't get inplace step iterator for a non-inplace step function.")
    else
      if resolvable "state_or_history_browser" then
        .ok ⟨"state_or_history_browser", step_profile⟩
      else
        .error (.nameError "state_or_history_browser")

/-! ### Memoized construction of `SimpackGrokker` -/

/-- A constructed `SimpackGrokker` instance.  `instanceToken` models Python
object identity: each construction mints a fresh token, so two grokkers are
the identical instance iff they are equal as values. -/
structure Grokker where
  instanceToken : Nat
  simpack : Simpack
  analysis : Analysis
  settings : List (String × Nat)
deriving DecidableEq, Repr

/-- Modelled from the spec: `garlicsim.general_misc.caching.CachedType` (the
`__metaclass__` of `SimpackGrokker`) is not under `src/`.  Per the spec it is
"an explicit keyed registry (mapping from package identity to Analyzer)" that
is process-wide; `constructions` counts how many times the analysis work
(`__init__`) has actually run, and `nextInstanceToken` mints object
identities. -/
structure GrokkerCache where
  cache : List (Nat × Grokker)
  nextInstanceToken : Nat
  constructions : Nat
deriving DecidableEq, Repr

/-- `SimpackGrokker(simpack)` under the `CachedType` metaclass — Modelled from
the spec: "returns the single cached Analyzer for `package`'s identity;
performs [analysis] exactly once per distinct package ...; subsequent calls
for the same package return the same instance without recomputation", and "no
partial/degraded Analyzer is ever cached" (a failing `__init__` propagates its
exception and caches nothing).  A cache miss runs `__init_analysis` and
`__init_analysis_settings` (the body of `SimpackGrokker.__init__`). -/
def SimpackGrokkerCall (w : GrokkerCache) (simpack : Simpack) :
    Except Exc (Grokker × GrokkerCache) :=
  match lookupKey simpack.id w.cache with
  | some cached => .ok (cached, w)
  | none =>
    match initAnalysis simpack with
    | .error e => .error e
    | .ok analysis =>
      let g : Grokker :=
        ⟨w.nextInstanceToken, simpack, analysis,
         resolveSettings frameworkDefaultSettings simpack.settings?⟩
      .ok (g, ⟨(simpack.id, g) :: w.cache, w.nextInstanceToken + 1,
               w.constructions + 1⟩)

/-- `simpack_tools.get_from_state(state)` — Modelled from the spec:
`simpack_tools` is not under `src/`; per the spec it "resolves the package
that produced `state`". -/
def get_from_state (state : StateObj) : Simpack := state.simpack

/-- `SimpackGrokker.create_from_state(state)`:
`simpack = simpack_tools.get_from_state(state); return
SimpackGrokker(simpack)`. -/
def create_from_state (w : GrokkerCache) (state : StateObj) :
    Except Exc (Grokker × GrokkerCache) :=
  SimpackGrokkerCall w (get_from_state state)

/-! ### `TempValueSetter` (`temp_value_setter.py`) -/

/-- `TempValueSetter(variable, value)` reduced to its `(getter, setter)` pair,
over an explicit world `W` of the mutable binding and value type `V`:
`getter` reads the binding's current value from the world, `setter` writes a
value into it, `value` is the temporary value (`self.value`). -/
structure TempValueSetter (W V : Type) where
  getter : W → V
  setter : V → W → W
  value : V

/-- `TempValueSetter.__enter__`: record `self.old_value = self.getter()`, do
`self.setter(self.value)`, then record `self._value_right_after_setting =
self.getter()` (re-read after setting, in case the system modified the set
value).  Returns the new world with the two recorded values. -/
def TempValueSetter.enter (t : TempValueSetter W V) (w : W) : W × V × V :=
  let old_value := t.getter w
  let w1 := t.setter t.value w
  let value_right_after_setting := t.getter w1
  (w1, old_value, value_right_after_setting)

/-- `TempValueSetter.__exit__`: `assert self.getter() ==
self._value_right_after_setting` (raising `AssertionError` on mismatch —
someone inside the suite changed the variable), then `self.setter(
self.old_value)`. -/
def TempValueSetter.exitScope [DecidableEq V] (t : TempValueSetter W V)
    (old_value value_right_after_setting : V) (w : W) : Except Exc W :=
  if t.getter w = value_right_after_setting then
    .ok (t.setter old_value w)
  else
    .error .assertionError

/-- The `with TempValueSetter(...)` statement around a suite `body`.  The body
transforms the world and may raise (`some e`); per the context-manager
protocol `__exit__` runs on both the normal and the error path, and an
exception raised by `__exit__` itself propagates instead. -/
def TempValueSetter.run [DecidableEq V] (t : TempValueSetter W V)
    (body : W → W × Option Exc) (w : W) : W × Option Exc :=
  let (w1, old_value, value_right_after_setting) := t.enter w
  let (w2, bodyExc) := body w1
  match t.exitScope old_value value_right_after_setting w2 with
  | .ok w3 => (w3, bodyExc)
  | .error e => (w2, some e)

/-! ### The `(dict, key)` variant of `TempValueSetter` -/

/-- The `(dict, key)` getter: `lambda: first.get(second, NotInDict)`.  The
`NotInDict` sentinel is modelled as `none`, a stored value `v` as `some v`. -/
def dictGet [DecidableEq K] (k : K) (d : List (K × V)) : Option V :=
  lookupKey k d

/-- The `(dict, key)` setter: `lambda value: (first.__setitem__(second, value)
if value is not NotInDict else first.__delitem__(second))`.  `__delitem__` on
an absent key raises `KeyError`. -/
def dictSet [DecidableEq K] (k : K) (x : Option V) (d : List (K × V)) :
    Except Exc (List (K × V)) :=
  match x with
  | some v => .ok (setKey k v d)
  | none =>
    match lookupKey k d with
    | some _ => .ok (delKey k d)
    | none => .error .keyError

/-- `with TempValueSetter((d, k), value): body`, for the `(dict, key)` case
with its fallible setter: `__enter__` records `old_value = d.get(k,
NotInDict)` and sets the temporary value, records the value right after
setting, runs the suite (`body`, a dict transformer), then `__exit__` asserts
the binding is unchanged and writes `old_value` back — deleting the key when
`old_value` is the `NotInDict` sentinel. -/
def dictTempValueRun [DecidableEq K] [DecidableEq V] (k : K) (value : Option V)
    (body : List (K × V) → List (K × V)) (d : List (K × V)) :
    Except Exc (List (K × V)) :=
  let old_value := dictGet k d
  match dictSet k value d with
  | .error e => .error e
  | .ok d1 =>
    let value_right_after_setting := dictGet k d1
    let d2 := body d1
    if dictGet k d2 = value_right_after_setting then
      dictSet k old_value d2
    else
      .error .assertionError

/-! ### Concrete fixtures (sample simpacks used to evaluate the embedding) -/

/-- A `State.step_generator` callable marked as `StepGenerator`. -/
def gStepGenerator : Method := ⟨"step_generator", some .StepGenerator, 0⟩

/-- A `State.step` callable marked as `SimpleStep`. -/
def gSimpleStep : Method := ⟨"step", some .SimpleStep, 1⟩

/-- A `State.history_step` callable marked as `HistoryStep`. -/
def gHistoryStep : Method := ⟨"history_step", some .HistoryStep, 2⟩

/-- A `State.history_step_generator` callable marked as
`HistoryStepGenerator`. -/
def gHistoryStepGenerator : Method := ⟨"history_step_generator",
  some .HistoryStepGenerator, 3⟩

/-- A `State.inplace_step` callable marked as `InplaceStep`. -/
def gInplaceStep : Method := ⟨"inplace_step", some .InplaceStep, 4⟩

/-- A `State` class defining a `SimpleStep` (declared first) and a
`StepGenerator` (declared second). -/
def gStateBoth : StateClass := ⟨true, [gSimpleStep, gStepGenerator]⟩

/-- A simpack whose `State` defines both a `SimpleStep` and a
`StepGenerator`. -/
def gSimpackBoth : Simpack := ⟨7, some gStateBoth, none⟩

/-- The analysis `initAnalysis` computes for `gSimpackBoth`. -/
def gAnalysisBoth : Analysis :=
  ⟨classifyMethods gStateBoth.methods, false, gStepGenerator⟩

/-- A `State` class defining a `HistoryStep` (declared first) and a
`HistoryStepGenerator` (declared second). -/
def gStateHistoryBoth : StateClass :=
  ⟨true, [gHistoryStep, gHistoryStepGenerator]⟩

/-- A simpack whose `State` defines both a `HistoryStep` and a
`HistoryStepGenerator`. -/
def gSimpackHistoryBoth : Simpack := ⟨8, some gStateHistoryBoth, none⟩

/-- The analysis `initAnalysis` computes for `gSimpackHistoryBoth`. -/
def gAnalysisHistoryBoth : Analysis :=
  ⟨classifyMethods gStateHistoryBoth.methods, true, gHistoryStepGenerator⟩

/-- A `State` class mixing a history-dependent and a non-history-dependent
step function. -/
def gStateMixed : StateClass := ⟨true, [gHistoryStep, gSimpleStep]⟩

/-- A simpack mixing history and non-history step functions. -/
def gSimpackMixed : Simpack := ⟨9, some gStateMixed, none⟩

/-- A `State` class whose only callable is not step-shaped. -/
def gStateNoStep : StateClass := ⟨true, [⟨"render", none, 5⟩]⟩

/-- A simpack defining no step function at all. -/
def gSimpackNoStep : Simpack := ⟨10, some gStateNoStep, none⟩

/-- A simpack with no `State` attribute. -/
def gSimpackNoState : Simpack := ⟨11, none, none⟩

/-- A simpack whose `State` is not a subclass of
`garlicsim.data_structures.State`. -/
def gSimpackBadState : Simpack := ⟨12, some ⟨false, [gSimpleStep]⟩, none⟩

/-- A `TempValueSetter` over a single mutable cell (world = the cell's
current value): getter reads the cell, setter overwrites it, temporary value
`5`. -/
def gCell : TempValueSetter Nat Nat := ⟨fun w => w, fun v _ => v, 5⟩

/-- A suite body that raises after leaving the binding untouched. -/
def gBody : Nat → Nat × Option Exc :=
  fun w => (w, some (.garlicSimException "boom"))

/-! ## Structural lemmas about `initAnalysis` -/

/-- Shape of a successful analysis: the stored table is the classification of
the `State` class's methods, and the branch taken fixes `history_dependent`
and pins `default_step_function` to the head of the branch's concatenation
(in the history branch the four non-history categories are empty, since the
mixing check raised otherwise; in the non-history branch the two history
categories are empty, since that branch is only reached then). -/
theorem initAnalysis_ok_shape (simpack : Simpack) (State : StateClass)
    (hS : simpack.StateClass? = some State)
    (a : Analysis) (hok : initAnalysis simpack = .ok a) :
    a.step_functions = classifyMethods State.methods ∧
    ((a.history_dependent = true ∧
      ((classifyMethods State.methods).historyStepGenerator ++
       (classifyMethods State.methods).historyStep).head? =
        some a.default_step_function ∧
      (classifyMethods State.methods).simpleStep = [] ∧
      (classifyMethods State.methods).stepGenerator = [] ∧
      (classifyMethods State.methods).inplaceStep = [] ∧
      (classifyMethods State.methods).inplaceStepGenerator = []) ∨
     (a.history_dependent = false ∧
      (classifyMethods State.methods).historyStep = [] ∧
      (classifyMethods State.methods).historyStepGenerator = [] ∧
      ((classifyMethods State.methods).stepGenerator ++
       (classifyMethods State.methods).simpleStep ++
       (classifyMethods State.methods).inplaceStepGenerator ++
       (classifyMethods State.methods).inplaceStep).head? =
        some a.default_step_function)) := by
  unfold initAnalysis at hok
  rw [hS] at hok
  dsimp only at hok
  split at hok
  · exact absurd hok (by simp)
  · split at hok
    · exact absurd hok (by simp)
    · rename_i hnonempty
      split at hok
      · rename_i hhist
        split at hok
        · exact absurd hok (by simp)
        · rename_i d hd
          split at hok
          · exact absurd hok (by simp)
          · rename_i hnomix
            simp only [Bool.or_eq_true, Bool.not_eq_true', not_or,
              List.isEmpty_eq_false, List.isEmpty_iff, not_not] at hnomix
            cases hok
            exact ⟨rfl, .inl ⟨rfl, hd, hnomix.1.1.1, hnomix.1.1.2,
              hnomix.1.2, hnomix.2⟩⟩
      · rename_i hnohist
        simp only [Bool.or_eq_true, Bool.not_eq_true', not_or,
          List.isEmpty_eq_false, List.isEmpty_iff, not_not] at hnohist
        split at hok
        · exact absurd hok (by simp)
        · rename_i d hd
          cases hok
          exact ⟨rfl, .inr ⟨rfl, hnohist.1, hnohist.2, hd⟩⟩

/-! ## C1 — default-step selection priority -/

/-- C1: Default-step selection follows a fixed priority order.  When the
analysis succeeds: in the history-dependent branch `default_step_function` is
the first callable of `HistoryStepGenerator ++ HistoryStep` (category order,
then scan order within a category); in the non-history branch it is the first
callable of `StepGenerator ++ SimpleStep ++ InplaceStepGenerator ++
InplaceStep`.  In particular, a package whose table has a unique
`StepGenerator` and some `SimpleStep` gets the `StepGenerator` callable as
default, and one with a unique `HistoryStepGenerator` and some `HistoryStep`
gets the `HistoryStepGenerator` callable. -/
theorem C1_default_step_priority (simpack : Simpack) (State : StateClass)
    (hS : simpack.StateClass? = some State)
    (a : Analysis) (hok : initAnalysis simpack = .ok a) :
    (a.history_dependent = true →
      ((classifyMethods State.methods).historyStepGenerator ++
       (classifyMethods State.methods).historyStep).head? =
        some a.default_step_function) ∧
    (a.history_dependent = false →
      ((classifyMethods State.methods).stepGenerator ++
       (classifyMethods State.methods).simpleStep ++
       (classifyMethods State.methods).inplaceStepGenerator ++
       (classifyMethods State.methods).inplaceStep).head? =
        some a.default_step_function) ∧
    (∀ g, (classifyMethods State.methods).stepGenerator = [g] →
      (classifyMethods State.methods).simpleStep ≠ [] →
      a.default_step_function = g) ∧
    (∀ g, (classifyMethods State.methods).historyStepGenerator = [g] →
      (classifyMethods State.methods).historyStep ≠ [] →
      a.default_step_function = g) := by
  obtain ⟨-, hcases⟩ := initAnalysis_ok_shape simpack State hS a hok
  rcases hcases with ⟨hhd, hd, hss, hsg, _, _⟩ | ⟨hhd, hhs, hhsg, hd⟩
  · refine ⟨fun _ => hd, fun hfalse => ?_, fun g hg _ => ?_, fun g hg _ => ?_⟩
    · rw [hhd] at hfalse; exact absurd hfalse (by simp)
    · rw [hsg] at hg; exact absurd hg (by simp)
    · rw [hg] at hd
      simpa using hd.symm
  · refine ⟨fun htrue => ?_, fun _ => hd, fun g hg hss => ?_, fun g hg _ => ?_⟩
    · rw [hhd] at htrue; exact absurd htrue (by simp)
    · rw [hg] at hd
      simpa using hd.symm
    · rw [hhsg] at hg; exact absurd hg (by simp)

/-- Witness for C1 at `gSimpackBoth` (a simpack declaring `SimpleStep` first
and `StepGenerator` second): the hypotheses hold and the default is the
`StepGenerator` callable. -/
theorem C1_default_step_priority_witness :
    gSimpackBoth.StateClass? = some gStateBoth ∧
    initAnalysis gSimpackBoth = .ok gAnalysisBoth ∧
    ((gAnalysisBoth.history_dependent = true →
      ((classifyMethods gStateBoth.methods).historyStepGenerator ++
       (classifyMethods gStateBoth.methods).historyStep).head? =
        some gAnalysisBoth.default_step_function) ∧
    (gAnalysisBoth.history_dependent = false →
      ((classifyMethods gStateBoth.methods).stepGenerator ++
       (classifyMethods gStateBoth.methods).simpleStep ++
       (classifyMethods gStateBoth.methods).inplaceStepGenerator ++
       (classifyMethods gStateBoth.methods).inplaceStep).head? =
        some gAnalysisBoth.default_step_function) ∧
    (∀ g, (classifyMethods gStateBoth.methods).stepGenerator = [g] →
      (classifyMethods gStateBoth.methods).simpleStep ≠ [] →
      gAnalysisBoth.default_step_function = g) ∧
    (∀ g, (classifyMethods gStateBoth.methods).historyStepGenerator = [g] →
      (classifyMethods gStateBoth.methods).historyStep ≠ [] →
      gAnalysisBoth.default_step_function = g)) :=
  ⟨rfl, by rfl,
   C1_default_step_priority gSimpackBoth gStateBoth rfl gAnalysisBoth (by rfl)⟩

/-! ## C2 — exclusivity invariant -/

/-- C2: for every simpack with a valid `State` class whose classification has
at least one `HistoryStep`/`HistoryStepGenerator` callable and at least one
`SimpleStep`/`StepGenerator`/`InplaceStep`/`InplaceStepGenerator` callable,
analysis raises `InvalidSimpack` (mixing history-dependent and
non-history-dependent step functions). -/
theorem C2_exclusivity (simpack : Simpack) (State : StateClass)
    (hS : simpack.StateClass? = some State)
    (hsub : State.isSubclassOfDataState = true)
    (hhist : (classifyMethods State.methods).historyStep ≠ [] ∨
             (classifyMethods State.methods).historyStepGenerator ≠ [])
    (hnonhist : (classifyMethods State.methods).simpleStep ≠ [] ∨
                (classifyMethods State.methods).stepGenerator ≠ [] ∨
                (classifyMethods State.methods).inplaceStep ≠ [] ∨
                (classifyMethods State.methods).inplaceStepGenerator ≠ []) :
    initAnalysis simpack = .error (.invalidSimpack .mixedHistory) := by
  unfold initAnalysis
  rw [hS]
  dsimp only
  split
  · rename_i h
    rw [hsub] at h
    exact absurd h (by simp)
  · split
    · rename_i h
      exfalso
      simp only [List.isEmpty_iff, allStepFunctions, List.append_eq_nil] at h
      obtain ⟨⟨⟨⟨⟨h1, h2⟩, h3⟩, h4⟩, h5⟩, h6⟩ := h
      rcases hhist with hh | hh
      · exact hh h5
      · exact hh h6
    · split
      · split
        · rename_i hhead
          exfalso
          rcases List.append_eq_nil.mp (List.head?_eq_none_iff.mp hhead)
            with ⟨h1, h2⟩
          rcases hhist with hh | hh
          · exact hh h2
          · exact hh h1
        · split
          · rfl
          · rename_i hnomix
            exfalso
            simp only [Bool.or_eq_true, Bool.not_eq_true',
              List.isEmpty_eq_false, not_or, not_not,
              List.isEmpty_iff] at hnomix
            obtain ⟨⟨⟨h1, h2⟩, h3⟩, h4⟩ := hnomix
            rcases hnonhist with h | h | h | h
            · exact h h1
            · exact h h2
            · exact h h3
            · exact h h4
      · rename_i h
        exfalso
        simp only [Bool.or_eq_true, Bool.not_eq_true', not_or,
          List.isEmpty_eq_false, List.isEmpty_iff, not_not] at h
        rcases hhist with hh | hh
        · exact hh h.1
        · exact hh h.2

/-- Witness for C2 at `gSimpackMixed` (a `HistoryStep` plus a
`SimpleStep`). -/
theorem C2_exclusivity_witness :
    gSimpackMixed.StateClass? = some gStateMixed ∧
    gStateMixed.isSubclassOfDataState = true ∧
    ((classifyMethods gStateMixed.methods).historyStep ≠ [] ∨
     (classifyMethods gStateMixed.methods).historyStepGenerator ≠ []) ∧
    ((classifyMethods gStateMixed.methods).simpleStep ≠ [] ∨
     (classifyMethods gStateMixed.methods).stepGenerator ≠ [] ∨
     (classifyMethods gStateMixed.methods).inplaceStep ≠ [] ∨
     (classifyMethods gStateMixed.methods).inplaceStepGenerator ≠ []) ∧
    initAnalysis gSimpackMixed = .error (.invalidSimpack .mixedHistory) :=
  ⟨rfl, rfl, .inl (by decide), .inl (by decide),
   C2_exclusivity gSimpackMixed gStateMixed rfl rfl (.inl (by decide))
     (.inl (by decide))⟩

/-! ## C3 — completeness invariant -/

/-- C3: for every simpack with a valid `State` class none of whose callables
is classified into any step category, analysis raises `InvalidSimpack` ("has
not defined any kind of step function"). -/
theorem C3_completeness (simpack : Simpack) (State : StateClass)
    (hS : simpack.StateClass? = some State)
    (hsub : State.isSubclassOfDataState = true)
    (hnone : ∀ t, (classifyMethods State.methods).get t = []) :
    initAnalysis simpack = .error (.invalidSimpack .noStepFunction) := by
  unfold initAnalysis
  rw [hS]
  dsimp only
  split
  · rename_i h
    rw [hsub] at h
    exact absurd h (by simp)
  · split
    · rfl
    · rename_i h
      exfalso
      apply h
      have h1 := hnone .SimpleStep
      have h2 := hnone .StepGenerator
      have h3 := hnone .InplaceStep
      have h4 := hnone .InplaceStepGenerator
      have h5 := hnone .HistoryStep
      have h6 := hnone .HistoryStepGenerator
      simp only [StepFunctionTable.get] at h1 h2 h3 h4 h5 h6
      simp [allStepFunctions, h1, h2, h3, h4, h5, h6]

/-- Witness for C3 at `gSimpackNoStep` (a single non-step callable
`render`). -/
theorem C3_completeness_witness :
    gSimpackNoStep.StateClass? = some gStateNoStep ∧
    gStateNoStep.isSubclassOfDataState = true ∧
    (∀ t, (classifyMethods gStateNoStep.methods).get t = []) ∧
    initAnalysis gSimpackNoStep = .error (.invalidSimpack .noStepFunction) :=
  ⟨rfl, rfl, by decide,
   C3_completeness gSimpackNoStep gStateNoStep rfl rfl (by decide)⟩

/-! ## C4 — state-type validation -/

/-- C4: analysis raises `InvalidSimpack` for every simpack that either does
not expose a `State` attribute at all, or whose `State` is not a subclass of
`garlicsim.data_structures.State`. -/
theorem C4_state_validation (simpack : Simpack)
    (h : simpack.StateClass? = none ∨
         ∃ State, simpack.StateClass? = some State ∧
           State.isSubclassOfDataState = false) :
    ∃ r, initAnalysis simpack = .error (.invalidSimpack r) := by
  rcases h with h | ⟨State, hS, hsub⟩
  · refine ⟨.noStateClass, ?_⟩
    unfold initAnalysis
    rw [h]
  · refine ⟨.stateNotSubclass, ?_⟩
    unfold initAnalysis
    rw [hS]
    dsimp only
    rw [hsub]
    rfl

/-- Witness for C4 at `gSimpackNoState` (no `State` attribute). -/
theorem C4_state_validation_witness :
    (gSimpackNoState.StateClass? = none ∨
     ∃ State, gSimpackNoState.StateClass? = some State ∧
       State.isSubclassOfDataState = false) ∧
    ∃ r, initAnalysis gSimpackNoState = .error (.invalidSimpack r) :=
  ⟨.inl rfl, C4_state_validation gSimpackNoState (.inl rfl)⟩

/-! ## C5 — settings resolution -/

/-- Reading a key off the resolved settings: every recognized option keeps its
key, with the override's value when the override binds that key and the
default value otherwise. -/
theorem lookupKey_resolveSettings (defaults ov : List (String × Nat))
    (k : String) :
    lookupKey k (resolveSettings defaults (some ov)) =
      (lookupKey k defaults).map (fun v => (lookupKey k ov).getD v) := by
  induction defaults with
  | nil => rfl
  | cons kv rest ih =>
    obtain ⟨a, v⟩ := kv
    simp only [resolveSettings] at ih ⊢
    rw [List.map_cons]
    cases hov : lookupKey a ov with
    | none =>
      by_cases h : a = k
      · subst h
        simp [lookupKey, hov]
      · simp [lookupKey, h, ih]
    | some w =>
      by_cases h : a = k
      · subst h
        simp [lookupKey, hov]
      · simp [lookupKey, h, ih]

/-- C5: settings resolution starts from the framework defaults; with an
override object, every recognized option bound on the override takes the
override's value, every recognized option absent from the override keeps its
framework default, and options bound on the override but not recognized are
silently ignored (absent from the resolved settings). -/
theorem C5_settings_resolution (defaults ov : List (String × Nat)) :
    resolveSettings defaults none = defaults ∧
    (∀ k v w, lookupKey k defaults = some v → lookupKey k ov = some w →
      lookupKey k (resolveSettings defaults (some ov)) = some w) ∧
    (∀ k v, lookupKey k defaults = some v → lookupKey k ov = none →
      lookupKey k (resolveSettings defaults (some ov)) = some v) ∧
    (∀ k, lookupKey k defaults = none →
      lookupKey k (resolveSettings defaults (some ov)) = none) := by
  refine ⟨rfl, ?_, ?_, ?_⟩
  · intro k v w hd hov
    rw [lookupKey_resolveSettings, hd, hov]
    rfl
  · intro k v hd hov
    rw [lookupKey_resolveSettings, hd, hov]
    rfl
  · intro k hd
    rw [lookupKey_resolveSettings, hd]
    rfl

/-- Witness for C5 on the framework defaults with an override binding the
recognized `DETERMINISM_FUNCTION`, leaving `CRUNCHERS` unset, and binding an
unrecognized option. -/
theorem C5_settings_resolution_witness :
    lookupKey "DETERMINISM_FUNCTION" frameworkDefaultSettings = some 0 ∧
    lookupKey "DETERMINISM_FUNCTION"
      [("DETERMINISM_FUNCTION", 42), ("UNRECOGNIZED_OPTION", 99)] = some 42 ∧
    lookupKey "DETERMINISM_FUNCTION"
      (resolveSettings frameworkDefaultSettings
        (some [("DETERMINISM_FUNCTION", 42), ("UNRECOGNIZED_OPTION", 99)])) =
      some 42 :=
  ⟨by decide, by decide,
   (C5_settings_resolution frameworkDefaultSettings
       [("DETERMINISM_FUNCTION", 42), ("UNRECOGNIZED_OPTION", 99)]).2.1
     "DETERMINISM_FUNCTION" 0 42 (by decide) (by decide)⟩

/-! ## C6 — `get_inplace_step_iterator` on a non-inplace profile -/

/-- C6 counterexample: for a profile bound to a `SimpleStep` function,
`get_inplace_step_iterator` raises `GarlicSimException` — not
`UnsupportedOperation` as the claim states (no `raise` site in
`simpack_grokker.py` constructs an `UnsupportedOperation`). -/
theorem C6_counterexample :
    get_inplace_step_iterator ⟨gSimpackBoth⟩ ⟨gSimpleStep⟩ =
      .error (.garlicSimException
        "Can't get inplace step iterator for a non-inplace step function.") ∧
    get_inplace_step_iterator ⟨gSimpackBoth⟩ ⟨gSimpleStep⟩ ≠
      .error .unsupportedOperation := by
  have h : get_inplace_step_iterator ⟨gSimpackBoth⟩ ⟨gSimpleStep⟩ =
      .error (.garlicSimException
        "Can't get inplace step iterator for a non-inplace step function.") :=
    rfl
  refine ⟨h, ?_⟩
  rw [h]
  simp

/-- C6 (amended): for every step profile whose step function's category is
not `InplaceStep` or `InplaceStepGenerator`, `get_inplace_step_iterator`
raises `GarlicSimException` (the domain error for a non-inplace step
function); it never constructs an iterator for such a profile. -/
theorem C6_inplace_iterator_mismatch (state : StateObj) (step_profile : StepProfile)
    (t : StepType) (ht : get_step_type step_profile.step_function = some t)
    (hnot : t ∉ [StepType.InplaceStep, StepType.InplaceStepGenerator]) :
    get_inplace_step_iterator state step_profile =
      .error (.garlicSimException
        "Can't get inplace step iterator for a non-inplace step function.") ∧
    ∀ it, get_inplace_step_iterator state step_profile ≠ .ok it := by
  have h : get_inplace_step_iterator state step_profile =
      .error (.garlicSimException
        "Can't get inplace step iterator for a non-inplace step function.") := by
    unfold get_inplace_step_iterator
    dsimp only
    rw [ht]
    dsimp only
    rw [if_pos hnot]
  exact ⟨h, fun it hit => by rw [h] at hit; exact absurd hit (by simp)⟩

/-- Witness for C6 (amended) at a `SimpleStep`-bound profile. -/
theorem C6_inplace_iterator_mismatch_witness :
    get_step_type (StepProfile.mk gSimpleStep).step_function =
      some StepType.SimpleStep ∧
    StepType.SimpleStep ∉ [StepType.InplaceStep, StepType.InplaceStepGenerator] ∧
    (get_inplace_step_iterator ⟨gSimpackNoStep⟩ ⟨gSimpleStep⟩ =
      .error (.garlicSimException
        "Can't get inplace step iterator for a non-inplace step function.") ∧
    ∀ it, get_inplace_step_iterator ⟨gSimpackNoStep⟩ ⟨gSimpleStep⟩ ≠ .ok it) :=
  ⟨rfl, by decide,
   C6_inplace_iterator_mismatch ⟨gSimpackNoStep⟩ ⟨gSimpleStep⟩
     StepType.SimpleStep rfl (by decide)⟩

/-! ## C9 — the undefined name in the success branch -/

/-- C9: for every step profile whose step function IS classified
`InplaceStep` or `InplaceStepGenerator`, `get_inplace_step_iterator` raises
`NameError` instead of returning an iterator — its success branch evaluates
the name `state_or_history_browser`, which is bound neither in the function's
frame nor at module level; consequently `get_inplace_step_iterator` never
returns successfully for any input. -/
theorem C9_inplace_name_error (state : StateObj) (step_profile : StepProfile)
    (t : StepType) (ht : get_step_type step_profile.step_function = some t)
    (hin : t ∈ [StepType.InplaceStep, StepType.InplaceStepGenerator]) :
    get_inplace_step_iterator state step_profile =
      .error (.nameError "state_or_history_browser") ∧
    ∀ (st : StateObj) (q : StepProfile) (it : InplaceStepIterator),
      get_inplace_step_iterator st q ≠ .ok it := by
  constructor
  · unfold get_inplace_step_iterator
    dsimp only
    rw [ht]
    dsimp only
    rw [if_neg (not_not_intro hin)]
    rw [show resolvable "state_or_history_browser" = false from by decide]
    simp
  · intro st q it hit
    unfold get_inplace_step_iterator at hit
    dsimp only at hit
    rcases hq : get_step_type q.step_function with _ | t'
    · rw [hq] at hit
      exact absurd hit (by simp)
    · rw [hq] at hit
      dsimp only at hit
      by_cases hmem : t' ∈ [StepType.InplaceStep, StepType.InplaceStepGenerator]
      · rw [if_neg (not_not_intro hmem)] at hit
        rw [show resolvable "state_or_history_browser" = false from by decide]
          at hit
        simp at hit
      · rw [if_pos hmem] at hit
        exact absurd hit (by simp)

/-- Witness for C9 at an `InplaceStep`-bound profile. -/
theorem C9_inplace_name_error_witness :
    get_step_type (StepProfile.mk gInplaceStep).step_function =
      some StepType.InplaceStep ∧
    StepType.InplaceStep ∈ [StepType.InplaceStep, StepType.InplaceStepGenerator] ∧
    (get_inplace_step_iterator ⟨gSimpackNoState⟩ ⟨gInplaceStep⟩ =
      .error (.nameError "state_or_history_browser") ∧
    ∀ (st : StateObj) (q : StepProfile) (it : InplaceStepIterator),
      get_inplace_step_iterator st q ≠ .ok it) :=
  ⟨rfl, by decide,
   C9_inplace_name_error ⟨gSimpackNoState⟩ ⟨gInplaceStep⟩ StepType.InplaceStep
     rfl (by decide)⟩

/-! ## C7 — memoized construction of `SimpackGrokker` -/

/-- C7: construction is memoized per package identity.  After a first
successful construction for a simpack yields instance `g1` and cache `w1`, a
second construction for the same simpack returns exactly `g1` with the cache
(and hence its construction counter) unchanged — the analysis work runs only
on the first construction — and `create_from_state` on a state produced from
that simpack returns the same cached instance. -/
theorem C7_memoization (w : GrokkerCache) (simpack : Simpack)
    (g1 : Grokker) (w1 : GrokkerCache)
    (h1 : SimpackGrokkerCall w simpack = .ok (g1, w1)) :
    SimpackGrokkerCall w1 simpack = .ok (g1, w1) ∧
    (∀ g2 w2, SimpackGrokkerCall w1 simpack = .ok (g2, w2) →
      g2 = g1 ∧ w2.constructions = w1.constructions) ∧
    (∀ state : StateObj, state.simpack = simpack →
      create_from_state w1 state = .ok (g1, w1)) := by
  have hlookup : lookupKey simpack.id w1.cache = some g1 := by
    unfold SimpackGrokkerCall at h1
    rcases hc : lookupKey simpack.id w.cache with _ | cached
    · rw [hc] at h1
      dsimp only at h1
      rcases ha : initAnalysis simpack with e | a
      · rw [ha] at h1
        exact absurd h1 (by simp)
      · rw [ha] at h1
        dsimp only at h1
        cases h1
        simp [lookupKey]
    · rw [hc] at h1
      dsimp only at h1
      cases h1
      exact hc
  have hsecond : SimpackGrokkerCall w1 simpack = .ok (g1, w1) := by
    unfold SimpackGrokkerCall
    rw [hlookup]
  refine ⟨hsecond, ?_, ?_⟩
  · intro g2 w2 h2
    rw [hsecond] at h2
    cases h2
    exact ⟨rfl, rfl⟩
  · intro state hs
    unfold create_from_state get_from_state
    rw [hs]
    exact hsecond

/-- Witness for C7: construct the grokker for `gSimpackBoth` in the empty
cache, then again. -/
theorem C7_memoization_witness :
    SimpackGrokkerCall ⟨[], 0, 0⟩ gSimpackBoth =
      .ok (⟨0, gSimpackBoth, gAnalysisBoth, frameworkDefaultSettings⟩,
           ⟨[(7, ⟨0, gSimpackBoth, gAnalysisBoth, frameworkDefaultSettings⟩)],
            1, 1⟩) ∧
    (SimpackGrokkerCall
        ⟨[(7, ⟨0, gSimpackBoth, gAnalysisBoth, frameworkDefaultSettings⟩)],
         1, 1⟩ gSimpackBoth =
      .ok (⟨0, gSimpackBoth, gAnalysisBoth, frameworkDefaultSettings⟩,
           ⟨[(7, ⟨0, gSimpackBoth, gAnalysisBoth, frameworkDefaultSettings⟩)],
            1, 1⟩) ∧
    (∀ g2 w2, SimpackGrokkerCall
        ⟨[(7, ⟨0, gSimpackBoth, gAnalysisBoth, frameworkDefaultSettings⟩)],
         1, 1⟩ gSimpackBoth = .ok (g2, w2) →
      g2 = ⟨0, gSimpackBoth, gAnalysisBoth, frameworkDefaultSettings⟩ ∧
      w2.constructions = 1) ∧
    (∀ state : StateObj, state.simpack = gSimpackBoth →
      create_from_state
        ⟨[(7, ⟨0, gSimpackBoth, gAnalysisBoth, frameworkDefaultSettings⟩)],
         1, 1⟩ state =
      .ok (⟨0, gSimpackBoth, gAnalysisBoth, frameworkDefaultSettings⟩,
           ⟨[(7, ⟨0, gSimpackBoth, gAnalysisBoth, frameworkDefaultSettings⟩)],
            1, 1⟩))) :=
  ⟨by rfl,
   C7_memoization ⟨[], 0, 0⟩ gSimpackBoth
     ⟨0, gSimpackBoth, gAnalysisBoth, frameworkDefaultSettings⟩
     ⟨[(7, ⟨0, gSimpackBoth, gAnalysisBoth, frameworkDefaultSettings⟩)], 1, 1⟩
     (by rfl)⟩

/-! ## C8 — `TempValueSetter` scoped override -/

/-- C8: for a faithful binding (reading back what was written), the
`TempValueSetter` scope restores the old value of the binding on every exit
path — the suite's outcome, normal or raising, is passed through while the
world ends at `setter old_value`, whose read equals the original value — and
when the suite left the binding at a value different from the one recorded
right after the override was applied, release detects the mutation and raises
`AssertionError` instead. -/
theorem C8_temp_value_setter {W V : Type} [DecidableEq V]
    (t : TempValueSetter W V)
    (hcoh : ∀ (v : V) (w : W), t.getter (t.setter v w) = v)
    (body : W → W × Option Exc) (w : W) :
    (t.getter (body (t.setter t.value w)).1 = t.value →
      t.run body w =
        (t.setter (t.getter w) (body (t.setter t.value w)).1,
         (body (t.setter t.value w)).2) ∧
      t.getter (t.run body w).1 = t.getter w) ∧
    (t.getter (body (t.setter t.value w)).1 ≠ t.value →
      (t.run body w).2 = some .assertionError) := by
  have hrec : t.getter (t.setter t.value w) = t.value := hcoh _ _
  rcases hb : body (t.setter t.value w) with ⟨w2, exc⟩
  have hrun : t.run body w =
      if t.getter w2 = t.value then (t.setter (t.getter w) w2, exc)
      else (w2, some .assertionError) := by
    unfold TempValueSetter.run TempValueSetter.enter TempValueSetter.exitScope
    dsimp only
    rw [hb]
    dsimp only
    rw [hrec]
    by_cases hx : t.getter w2 = t.value
    · rw [if_pos hx, if_pos hx]
    · rw [if_neg hx, if_neg hx]
  constructor
  · intro hok
    dsimp only at hok
    rw [hrun, if_pos hok]
    exact ⟨rfl, hcoh _ _⟩
  · intro hbad
    dsimp only at hbad
    rw [hrun, if_neg hbad]

/-- Witness for C8 over a single mutable cell with a raising suite: the
binding is restored and the suite's exception propagates. -/
theorem C8_temp_value_setter_witness :
    (∀ (v w : Nat), gCell.getter (gCell.setter v w) = v) ∧
    ((gCell.getter (gBody (gCell.setter gCell.value 3)).1 = gCell.value →
      gCell.run gBody 3 =
        (gCell.setter (gCell.getter 3) (gBody (gCell.setter gCell.value 3)).1,
         (gBody (gCell.setter gCell.value 3)).2) ∧
      gCell.getter (gCell.run gBody 3).1 = gCell.getter 3) ∧
    (gCell.getter (gBody (gCell.setter gCell.value 3)).1 ≠ gCell.value →
      (gCell.run gBody 3).2 = some .assertionError)) :=
  ⟨fun _ _ => rfl, C8_temp_value_setter gCell (fun _ _ => rfl) gBody 3⟩

/-! ## C10 — absence round-trips through the `(dict, key)` variant -/

/-- Looking up a key right after setting it yields the set value. -/
theorem lookupKey_setKey {K V : Type} [DecidableEq K] (k : K) (v : V)
    (d : List (K × V)) : lookupKey k (setKey k v d) = some v := by
  simp [setKey, lookupKey]

/-- A deleted key is absent. -/
theorem lookupKey_delKey {K V : Type} [DecidableEq K] (k : K)
    (d : List (K × V)) : lookupKey k (delKey k d) = none := by
  induction d with
  | nil => rfl
  | cons kv rest ih =>
    obtain ⟨a, v⟩ := kv
    by_cases h : a = k
    · simpa [delKey, List.filter_cons, h] using ih
    · simpa [delKey, List.filter_cons, h, lookupKey] using ih

/-- C10: when the key is absent from the dict at entry, absence round-trips:
the getter records the `NotInDict` sentinel (`none`) as the old value, and
provided the suite left the temporary binding unchanged, exit succeeds by
deleting the key, so the key is absent again after the scope. -/
theorem C10_dict_absent_roundtrip {K V : Type} [DecidableEq K] [DecidableEq V]
    (k : K) (v : V) (body : List (K × V) → List (K × V)) (d : List (K × V))
    (habsent : lookupKey k d = none)
    (hbody : lookupKey k (body (setKey k v d)) = some v) :
    dictGet k d = none ∧
    ∃ dfinal, dictTempValueRun k (some v) body d = .ok dfinal ∧
      lookupKey k dfinal = none := by
  refine ⟨habsent, delKey k (body (setKey k v d)), ?_, lookupKey_delKey k _⟩
  unfold dictTempValueRun
  dsimp only
  have hset : dictSet k (some v) d = .ok (setKey k v d) := rfl
  rw [hset]
  dsimp only
  have hrecorded : dictGet k (setKey k v d) = some v := lookupKey_setKey k v d
  rw [hrecorded]
  have hafter : dictGet k (body (setKey k v d)) = some v := hbody
  rw [hafter, if_pos rfl]
  show dictSet k (dictGet k d) (body (setKey k v d)) = _
  rw [show dictGet k d = none from habsent]
  unfold dictSet
  rw [hbody]

/-- Witness for C10: key `x` absent from the empty dict, temporary value
`42`, identity suite. -/
theorem C10_dict_absent_roundtrip_witness :
    lookupKey "x" ([] : List (String × Nat)) = none ∧
    lookupKey "x" (id (setKey "x" 42 ([] : List (String × Nat)))) = some 42 ∧
    (dictGet "x" ([] : List (String × Nat)) = none ∧
     ∃ dfinal,
       dictTempValueRun "x" (some 42) id ([] : List (String × Nat)) =
         .ok dfinal ∧
       lookupKey "x" dfinal = none) :=
  ⟨rfl, by decide, C10_dict_absent_roundtrip "x" 42 id [] rfl (by decide)⟩

end GarlicSim
